import Mathlib

/-!
Verification of the `Financialadvisor` pipeline
(`src/dagger/src/main/__init__.py`).

The module defines two functions:

* `run_pipeline` — awaits, in textual order, seven external calls
  (fetch spreadsheet data, filter for new transactions, categorize
  expenses, write to MongoDB, get data from MongoDB, generate advice),
  then parses the generator response with `json.loads`, reads the
  `advice` field with `dict.get`, percent-encodes it with
  `urllib.parse.quote`, and finally calls `self.send`.
* `send` — iterates a hard-coded list of two phone numbers; for each it
  runs a `curl` POST, checks whether the literal substring `success`
  occurs in the stdout, raises `ValueError` otherwise, and wraps any
  exception of the attempt in a `RuntimeError` which it re-raises
  (aborting the loop).  After the loop it returns the stdout of the
  last attempt.

The embedding below models every external call as an oracle stored in
an `Env` record; the MongoDB store contents are threaded explicitly.
`run_pipeline` additionally returns the observables needed to state the
claims: the list of stages that were started, the history passed to the
advice generator, and the list of per-recipient delivery attempts.
-/

/-- Python exception values as they occur in this module.  External
dagger calls raise opaque exceptions (`external`); the orchestrator
itself can raise `TypeError` (from `urllib.parse.quote` applied to a
non-string), `ValueError` and `RuntimeError` (inside `send`).  The
constructor `generationError` represents the `GenerationError` class
named by the documentation; the source never raises it. -/
inductive PyError where
  | external (msg : String)
  | typeError (msg : String)
  | valueError (msg : String)
  | runtimeError (msg : String)
  | generationError (msg : String)
  deriving DecidableEq, Repr

/-- `str(e)` of an exception: its message. -/
def PyError.message : PyError → String
  | .external m => m
  | .typeError m => m
  | .valueError m => m
  | .runtimeError m => m
  | .generationError m => m

/-- The seven pipeline stages, in the order `run_pipeline` awaits them. -/
inductive Stage where
  | fetch
  | filterNew
  | categorize
  | persist
  | retrieve
  | generate
  | notify
  deriving DecidableEq, Repr

/-- The canonical stage order of `run_pipeline`. -/
def pipelineOrder : List Stage :=
  [.fetch, .filterNew, .categorize, .persist, .retrieve, .generate, .notify]

/-- JSON values that can sit in the generator's response envelope
(after `json.loads`): strings, `null` (Python `None`) and booleans. -/
inductive JVal where
  | jstr (s : String)
  | jnull
  | jbool (b : Bool)
  deriving DecidableEq, Repr

/-- Modelled from the spec: the Ledger Store holds the persisted
categorized transactions; `Store.write` appends a batch atomically and
`Store.readHistory` returns the current contents.  (The MongoDB
modules `write_to_mongo` / `get_from_mongo` are separate dagger
modules, not part of this file's source.) -/
structure Store where
  docs : List String
  deriving DecidableEq, Repr

/- ---------------------------------------------------------------- -/
/- Percent-encoding: `urllib.parse.quote` with the default safe set. -/
/- Characters and bytes are represented by their numeric codes.      -/
/- ---------------------------------------------------------------- -/

/-- Bytes `urllib.parse.quote` leaves unescaped with the default
`safe='/'`: ASCII letters, digits, and `_ . - ~ /`. -/
def isSafeByte (b : Nat) : Bool :=
  (decide (65 ≤ b) && decide (b ≤ 90)) ||
  (decide (97 ≤ b) && decide (b ≤ 122)) ||
  (decide (48 ≤ b) && decide (b ≤ 57)) ||
  b == 95 || b == 46 || b == 45 || b == 126 || b == 47

/-- Code of the uppercase hexadecimal digit of `x < 16`
(`'0'` = 48, `'A'` = 65). -/
def hexDigitCode (x : Nat) : Nat :=
  if x < 10 then 48 + x else 55 + x

/-- `quote` of one byte: a safe byte stands for itself, any other byte
becomes `%XX` with uppercase hex digits (37 is the code of `%`). -/
def quoteByte (b : Nat) : List Nat :=
  if isSafeByte b then [b] else [37, hexDigitCode (b / 16), hexDigitCode (b % 16)]

/-- `urllib.parse.quote` on a byte sequence, as a sequence of
character codes. -/
def quote : List Nat → List Nat
  | [] => []
  | b :: bs => quoteByte b ++ quote bs

/-- Is `c` the code of a hexadecimal digit (either case)?  Used by the
decoder, which accepts both cases like `urllib.parse.unquote`. -/
def isHexDigitCode (c : Nat) : Bool :=
  (decide (48 ≤ c) && decide (c ≤ 57)) ||
  (decide (65 ≤ c) && decide (c ≤ 70)) ||
  (decide (97 ≤ c) && decide (c ≤ 102))

/-- Numeric value of a hexadecimal digit code. -/
def hexVal (c : Nat) : Nat :=
  if c ≤ 57 then c - 48 else if c ≤ 70 then c - 55 else c - 87

/-- Percent-decoding (`urllib.parse.unquote`): `%` (code 37) followed
by two hex digits becomes one byte; anything else passes through
unchanged. -/
def unquote : List Nat → List Nat
  | [] => []
  | 37 :: h1 :: h2 :: rest =>
    if isHexDigitCode h1 && isHexDigitCode h2 then
      (16 * hexVal h1 + hexVal h2) :: unquote rest
    else
      37 :: unquote (h1 :: h2 :: rest)
  | c :: rest => c :: unquote rest

/-- The UTF-8 bytes of a string, as naturals (Python `str.encode`,
which `urllib.parse.quote` applies before escaping). -/
def utf8Bytes (s : String) : List Nat :=
  s.toUTF8.toList.map UInt8.toNat

/- ---------------------------------------------------------------- -/
/- Substring test: Python's `in` operator on strings.               -/
/- ---------------------------------------------------------------- -/

/-- `needle` occurs as a contiguous substring of `hay`. -/
def listContainsSub (hay needle : List Char) : Bool :=
  (List.range (hay.length + 1)).any (fun i => needle.isPrefixOf (hay.drop i))

/-- Python `needle in hay` on strings. -/
def strContainsSub (hay needle : String) : Bool :=
  listContainsSub hay.data needle.data

/- ---------------------------------------------------------------- -/
/- The `send` function.                                             -/
/- ---------------------------------------------------------------- -/

/-- The hard-coded recipient list of `send`
(`phone_numbers = ['15162341744', '15512259418']`). -/
def phone_numbers : List String :=
  ["15162341744", "15512259418"]

deriving instance DecidableEq for Except

/-- An SMS oracle: given the phone number and the encoded message,
the stdout of the `curl` container (`.ok`) or the exception the
execution raised (`.error`). -/
def SmsOracle : Type :=
  String → List Nat → Except PyError String

/-- One iteration of the `send` loop body for `phone`, including the
`except` clause: a transport exception, or a stdout lacking the
substring `success` (which raises
`ValueError(f"Failed to send message to {phone_number}: {result}")`),
is re-raised as
`RuntimeError(f"Error sending message to {phone_number}: {e}")`. -/
def attempt (sms : SmsOracle) (phone : String) (msg : List Nat) : Except PyError String :=
  match sms phone msg with
  | .error e =>
    .error (.runtimeError ("Error sending message to " ++ phone ++ ": " ++ e.message))
  | .ok result =>
    if strContainsSub result "success" then
      .ok result
    else
      .error (.runtimeError ("Error sending message to " ++ phone ++ ": " ++
        ("Failed to send message to " ++ phone ++ ": " ++ result)))

/-- Result of `send`: the phones for which a delivery attempt was
executed, and the returned value (the `result` variable after the
loop) or the exception that aborted the loop. -/
structure SendResult where
  attempts : List String
  result : Except PyError String
  deriving DecidableEq, Repr

/-- The `send` loop over a list of phones.  `last` is the current value
of the `result` variable.  A raised `RuntimeError` aborts the loop; if
the loop finishes, the last stdout is returned (an empty phone list
would leave `result` unbound — `NameError` — but the hard-coded list is
never empty). -/
def sendGo (sms : SmsOracle) (msg : List Nat) : List String → Option String → SendResult
  | [], last =>
    ⟨[], match last with
         | some r => .ok r
         | none => .error (.external "NameError: name result is not defined")⟩
  | p :: rest, _ =>
    match attempt sms p msg with
    | .error e => ⟨[p], .error e⟩
    | .ok r =>
      let t := sendGo sms msg rest (some r)
      ⟨p :: t.attempts, t.result⟩

/-- The `send` function: iterates the hard-coded `phone_numbers` list.
Its parameters are the encoded message and the SMS credentials/
transport (the oracle); it takes no recipient-list parameter. -/
def send (sms : SmsOracle) (msg : List Nat) : SendResult :=
  sendGo sms msg phone_numbers none

/- ---------------------------------------------------------------- -/
/- The `run_pipeline` function.                                     -/
/- ---------------------------------------------------------------- -/

/-- The external capabilities `run_pipeline` awaits.  Each field is the
outcome of the corresponding dagger call; store contents are threaded
separately through `Store`. `generate` is the composite of
`get_advice().generate` and the orchestrator's `json.loads` on its
textual response, producing the parsed envelope (a malformed or failed
response is an `.error`).  `write` returns the acknowledgement string;
on success the store gains the batch (atomic write, modelled from the
spec).  `readHealth` is the possible failure of
`get_from_mongo().get_data`; on success the history returned is the
store contents (read-after-write, modelled from the spec). -/
structure Env where
  fetchData : Except PyError String
  filterNew : String → List String → Except PyError (List String)
  categorize : List String → Except PyError (List String)
  write : List String → Except PyError String
  readHealth : Except PyError Unit
  generate : List String → Except PyError (List (String × JVal))
  sms : SmsOracle

/-- `urllib.parse.quote` applied to the Python value
`json.loads(generate_resp).get('advice')`: a string is UTF-8 encoded
and percent-encoded; a missing key (`None`), JSON `null` (`None`) or a
boolean raises `TypeError` inside `quote_from_bytes`. -/
def pyQuote : Option JVal → Except PyError (List Nat)
  | some (JVal.jstr s) => .ok (quote (utf8Bytes s))
  | _ => .error (.typeError "quote_from_bytes() expected bytes")

/-- Observables of one `run_pipeline` run: the stages started in
order, the history passed to each `generate` call, the per-recipient
delivery attempts, the final store contents, and the returned value or
raised exception. -/
structure PipeResult where
  stages : List Stage
  genInputs : List (List String)
  attempts : List String
  store : Store
  result : Except PyError String

/-- The `run_pipeline` function.  Each stage is awaited in textual
order and receives the previous stage's output (the persisted store
state for the retrieve step); any exception propagates immediately,
unchanged, and no later stage runs.  After a successful `generate`,
the orchestrator reads the `advice` field, percent-encodes it and
calls `send`. -/
def run_pipeline (env : Env) (st0 : Store) : PipeResult :=
  match env.fetchData with
  | .error e => ⟨[.fetch], [], [], st0, .error e⟩
  | .ok json_resp =>
    match env.filterNew json_resp st0.docs with
    | .error e => ⟨[.fetch, .filterNew], [], [], st0, .error e⟩
    | .ok new_transactions =>
      match env.categorize new_transactions with
      | .error e => ⟨[.fetch, .filterNew, .categorize], [], [], st0, .error e⟩
      | .ok categorized_transactions =>
        match env.write categorized_transactions with
        | .error e =>
          ⟨[.fetch, .filterNew, .categorize, .persist], [], [], st0, .error e⟩
        | .ok _ack =>
          let st1 : Store := ⟨st0.docs ++ categorized_transactions⟩
          match env.readHealth with
          | .error e =>
            ⟨[.fetch, .filterNew, .categorize, .persist, .retrieve], [], [], st1, .error e⟩
          | .ok _ =>
            let get_data := st1.docs
            match env.generate get_data with
            | .error e =>
              ⟨[.fetch, .filterNew, .categorize, .persist, .retrieve, .generate],
               [get_data], [], st1, .error e⟩
            | .ok generate_resp =>
              let resp_dict : Option JVal := List.lookup "advice" generate_resp
              match pyQuote resp_dict with
              | .error e =>
                ⟨[.fetch, .filterNew, .categorize, .persist, .retrieve, .generate],
                 [get_data], [], st1, .error e⟩
              | .ok encoded_message =>
                let s := send env.sms encoded_message
                ⟨pipelineOrder, [get_data], s.attempts, st1, s.result⟩

/-- `Except.isOk` specialised to pipeline results. -/
def exceptIsOk : Except PyError String → Bool
  | .ok _ => true
  | .error _ => false

/-- Is the raised error a `GenerationError`? -/
def exceptIsGenerationError : Except PyError String → Bool
  | .error (.generationError _) => true
  | _ => false

/-- Did the attempt for `phone` come back with a stdout containing the
success marker? -/
def succeedsB (sms : SmsOracle) (msg : List Nat) (phone : String) : Bool :=
  match sms phone msg with
  | .ok r => strContainsSub r "success"
  | .error _ => false

/- ---------------------------------------------------------------- -/
/- Concrete oracles and environments used as test inputs.           -/
/- ---------------------------------------------------------------- -/

/-- An SMS transport whose stdout never contains the success marker. -/
def failAllSms : SmsOracle := fun _ _ => .ok "nope"

/-- An SMS transport whose stdout always contains the success marker. -/
def okAllSms : SmsOracle := fun _ _ => .ok "ok success"

/-- An SMS transport that fails for the first hard-coded recipient and
would succeed for the second. -/
def firstFailsSms : SmsOracle :=
  fun p _ => if p = "15162341744" then .ok "denied" else .ok "great success"

/-- An SMS transport whose stdout is a JSON body reporting failure
while containing the literal substring `success`. -/
def falseJsonSms : SmsOracle := fun _ _ => .ok "\x7b\x22success\x22: false\x7d"

/-- An environment in which every external call succeeds. -/
def okEnv : Env where
  fetchData := .ok "rawsheet"
  filterNew := fun _ _ => .ok ["t1"]
  categorize := fun txs => .ok (txs.map (fun t => t ++ ":groceries"))
  write := fun _ => .ok "ack"
  readHealth := .ok ()
  generate := fun _ => .ok [("advice", JVal.jstr "Save more")]
  sms := okAllSms

/-- `okEnv`, except that the generator's response envelope has no
`advice` field. -/
def missingAdviceEnv : Env :=
  { okEnv with generate := fun _ => .ok [("foo", JVal.jstr "x")] }

/-- `okEnv`, except that the fetch stage raises an exception whose
text is `boom`. -/
def fetchBoomEnv : Env :=
  { okEnv with fetchData := .error (.external "boom") }

/-- `okEnv`, except that the categorize stage raises an exception
whose text is `boom`. -/
def categorizeBoomEnv : Env :=
  { okEnv with categorize := fun _ => .error (.external "boom") }

/- ---------------------------------------------------------------- -/
/- Percent-encoding round trip (claim C6).                          -/
/- ---------------------------------------------------------------- -/

lemma isSafeByte_ne_37 {b : Nat} (h : isSafeByte b = true) : b ≠ 37 := by
  simp only [isSafeByte, Bool.or_eq_true, Bool.and_eq_true, decide_eq_true_eq,
    beq_iff_eq] at h
  omega

lemma hexDigitCode_isHex : ∀ x, x < 16 → isHexDigitCode (hexDigitCode x) = true := by
  decide

lemma hexVal_hexDigitCode : ∀ x, x < 16 → hexVal (hexDigitCode x) = x := by
  decide

lemma unquote_cons_ne {c : Nat} (rest : List Nat) (h : c ≠ 37) :
    unquote (c :: rest) = c :: unquote rest := by
  cases rest with
  | nil => simp [unquote]
  | cons a t =>
    cases t with
    | nil => simp [unquote]
    | cons a2 t2 =>
      by_cases hc : c = 37
      · exact absurd hc h
      · simp [unquote, hc]

lemma unquote_percent (h1 h2 : Nat) (rest : List Nat)
    (H1 : isHexDigitCode h1 = true) (H2 : isHexDigitCode h2 = true) :
    unquote (37 :: h1 :: h2 :: rest) = (16 * hexVal h1 + hexVal h2) :: unquote rest := by
  simp [unquote, H1, H2]

lemma unquote_quote_bytes :
    ∀ bs : List Nat, (∀ b ∈ bs, b < 256) → unquote (quote bs) = bs := by
  intro bs h
  induction bs with
  | nil => simp [quote, unquote]
  | cons b t ih =>
    have hb : b < 256 := h b (by simp)
    have ht : ∀ x ∈ t, x < 256 := fun x hx => h x (by simp [hx])
    by_cases hs : isSafeByte b = true
    · rw [quote, quoteByte, if_pos hs, List.cons_append, List.nil_append,
        unquote_cons_ne _ (isSafeByte_ne_37 hs), ih ht]
    · have hd : b / 16 < 16 := by omega
      have hm : b % 16 < 16 := by omega
      rw [quote, quoteByte, if_neg hs]
      simp only [List.cons_append, List.nil_append]
      rw [unquote_percent _ _ _ (hexDigitCode_isHex _ hd) (hexDigitCode_isHex _ hm),
        hexVal_hexDigitCode _ hd, hexVal_hexDigitCode _ hm, ih ht]
      congr 1
      omega

/-- Claim C6: for every advice string, percent-decoding the message
produced by the pipeline's encoding step (`urllib.parse.quote` applied
to the UTF-8 bytes of the advice, as in `pyQuote`) recovers the
original advice text's bytes exactly. -/
theorem percent_encoding_roundtrip (s : String) :
    unquote (quote (utf8Bytes s)) = utf8Bytes s := by
  refine unquote_quote_bytes _ ?_
  intro b hb
  simp only [utf8Bytes, List.mem_map] at hb
  obtain ⟨u, _, rfl⟩ := hb
  exact u.toNat_lt_size

/- ---------------------------------------------------------------- -/
/- Behaviour of `send` (claims C2, C3, C8, C9, C10).                -/
/- ---------------------------------------------------------------- -/

/-- Claim C2 counterexample: with a transport whose responses lack the
success marker, `send` makes only one delivery attempt although the
hard-coded recipient list has two entries, and the failure aborts the
loop instead of being recorded locally. -/
theorem send_not_broadcast_complete_cex :
    (send failAllSms []).attempts = ["15162341744"] ∧
    phone_numbers.length = 2 ∧
    exceptIsOk (send failAllSms []).result = false := by
  refine ⟨rfl, rfl, rfl⟩

/-- Claim C2 (amended): `send` attempts recipients in list order and
stops at the first failure — the attempted list is the hard-coded list
truncated just past the longest all-successful prefix — and the call
succeeds iff every recipient's attempt carries the success marker.  No
aggregate of per-recipient outcomes is returned. -/
theorem send_fail_fast_attempts (sms : SmsOracle) (msg : List Nat) :
    (send sms msg).attempts =
      phone_numbers.take ((phone_numbers.takeWhile (succeedsB sms msg)).length + 1)
    ∧ (exceptIsOk (send sms msg).result = true ↔
        (phone_numbers.takeWhile (succeedsB sms msg)).length = phone_numbers.length) := by
  cases h1 : sms "15162341744" msg with
  | error e1 =>
    simp [send, sendGo, attempt, succeedsB, phone_numbers, exceptIsOk,
      List.takeWhile, h1]
  | ok r1 =>
    cases hc1 : strContainsSub r1 "success" with
    | false =>
      simp [send, sendGo, attempt, succeedsB, phone_numbers, exceptIsOk,
        List.takeWhile, h1, hc1]
    | true =>
      cases h2 : sms "15512259418" msg with
      | error e2 =>
        simp [send, sendGo, attempt, succeedsB, phone_numbers, exceptIsOk,
          List.takeWhile, h1, hc1, h2]
      | ok r2 =>
        cases hc2 : strContainsSub r2 "success" with
        | false =>
          simp [send, sendGo, attempt, succeedsB, phone_numbers, exceptIsOk,
            List.takeWhile, h1, hc1, h2, hc2]
        | true =>
          simp [send, sendGo, attempt, succeedsB, phone_numbers, exceptIsOk,
            List.takeWhile, h1, hc1, h2, hc2]

/-- Claim C3 counterexample: with a transport that fails for the first
hard-coded recipient and would succeed for the second, `send` raises
although the last recipient's attempt did not fail — indeed the loop
never reaches the last recipient. -/
theorem send_raises_without_last_failure_cex :
    exceptIsOk (send firstFailsSms []).result = false ∧
    (send firstFailsSms []).attempts = ["15162341744"] ∧
    succeedsB firstFailsSms [] "15512259418" = true := by
  refine ⟨rfl, rfl, by decide⟩

/-- Claim C3 (amended): `send` raises an error iff the attempt for
some recipient fails (not only the last one); the raised error names
the first recipient in iteration order whose attempt fails, and
recipients after it are not attempted. -/
theorem send_raises_iff_some_failure (sms : SmsOracle) (msg : List Nat) :
    (exceptIsOk (send sms msg).result = false ↔
      ∃ p ∈ phone_numbers, succeedsB sms msg p = false)
    ∧ (∀ e, (send sms msg).result = .error e →
        ∃ p rest, (phone_numbers.dropWhile (succeedsB sms msg)).head? = some p ∧
          e = .runtimeError ("Error sending message to " ++ p ++ rest)) := by
  cases h1 : sms "15162341744" msg with
  | error e1 =>
    constructor
    · simp [send, sendGo, attempt, succeedsB, phone_numbers, exceptIsOk, h1]
    · intro e he
      simp only [send, sendGo, attempt, h1, phone_numbers] at he
      refine ⟨"15162341744", ": " ++ e1.message, ?_, ?_⟩
      · simp [List.dropWhile, succeedsB, h1]
      · exact (Except.error.injEq _ _ ▸ he).symm ▸ rfl
  | ok r1 =>
    cases hc1 : strContainsSub r1 "success" with
    | false =>
      constructor
      · simp [send, sendGo, attempt, succeedsB, phone_numbers, exceptIsOk, h1, hc1]
      · intro e he
        simp only [send, sendGo, attempt, h1, hc1, phone_numbers] at he
        refine ⟨"15162341744",
          ": " ++ ("Failed to send message to " ++ "15162341744" ++ ": " ++ r1), ?_, ?_⟩
        · simp [List.dropWhile, succeedsB, h1, hc1]
        · exact (Except.error.injEq _ _ ▸ he).symm ▸ rfl
    | true =>
      cases h2 : sms "15512259418" msg with
      | error e2 =>
        constructor
        · simp [send, sendGo, attempt, succeedsB, phone_numbers, exceptIsOk,
            h1, hc1, h2]
        · intro e he
          simp only [send, sendGo, attempt, h1, hc1, h2, phone_numbers] at he
          refine ⟨"15512259418", ": " ++ e2.message, ?_, ?_⟩
          · simp [List.dropWhile, succeedsB, h1, hc1, h2]
          · exact (Except.error.injEq _ _ ▸ he).symm ▸ rfl
      | ok r2 =>
        cases hc2 : strContainsSub r2 "success" with
        | false =>
          constructor
          · simp [send, sendGo, attempt, succeedsB, phone_numbers, exceptIsOk,
              h1, hc1, h2, hc2]
          · intro e he
            simp only [send, sendGo, attempt, h1, hc1, h2, hc2, phone_numbers] at he
            refine ⟨"15512259418",
              ": " ++ ("Failed to send message to " ++ "15512259418" ++ ": " ++ r2), ?_, ?_⟩
            · simp [List.dropWhile, succeedsB, h1, hc1, h2, hc2]
            · exact (Except.error.injEq _ _ ▸ he).symm ▸ rfl
        | true =>
          constructor
          · simp [send, sendGo, attempt, succeedsB, phone_numbers, exceptIsOk,
              h1, hc1, h2, hc2]
          · intro e he
            simp only [send, sendGo, attempt, h1, hc1, h2, hc2, phone_numbers] at he
            exact absurd he (by simp)

/-- Witness for the amended claim C3 at a concrete input: with the
always-failing transport, the raised error names the first recipient
whose attempt failed. -/
theorem send_raises_iff_some_failure_witness :
    ∃ p rest, (phone_numbers.dropWhile (succeedsB failAllSms [])).head? = some p ∧
      PyError.runtimeError
          "Error sending message to 15162341744: Failed to send message to 15162341744: nope" =
        .runtimeError ("Error sending message to " ++ p ++ rest) :=
  (send_raises_iff_some_failure failAllSms []).2 _ rfl

/-- Every execution path of `run_pipeline` either makes no delivery
attempt or delegates to `send` on some encoded message. -/
lemma run_pipeline_attempts_cases (env : Env) (st0 : Store) :
    (run_pipeline env st0).attempts = [] ∨
    ∃ m, (run_pipeline env st0).attempts = (send env.sms m).attempts := by
  cases hf : env.fetchData with
  | error e => simp [run_pipeline, hf]
  | ok jr =>
    cases hfil : env.filterNew jr st0.docs with
    | error e => simp [run_pipeline, hf, hfil]
    | ok txs =>
      cases hc : env.categorize txs with
      | error e => simp [run_pipeline, hf, hfil, hc]
      | ok cats =>
        cases hw : env.write cats with
        | error e => simp [run_pipeline, hf, hfil, hc, hw]
        | ok ack =>
          cases hr : env.readHealth with
          | error e => simp [run_pipeline, hf, hfil, hc, hw, hr]
          | ok u =>
            cases hg : env.generate (st0.docs ++ cats) with
            | error e => simp [run_pipeline, hf, hfil, hc, hw, hr, hg]
            | ok envlp =>
              cases hq : pyQuote (List.lookup "advice" envlp) with
              | error e => simp [run_pipeline, hf, hfil, hc, hw, hr, hg, hq]
              | ok m =>
                right
                refine ⟨m, ?_⟩
                simp [run_pipeline, hf, hfil, hc, hw, hr, hg, hq]

/-- Claim C8 counterexample: `send` (whose embedding, faithful to the
source signature `send(self, encoded_message, textBelt)`, has no
recipient-list parameter) attempts exactly the baked-in constant list
`['15162341744', '15512259418']` — the recipients are not determined by
any caller argument. -/
theorem baked_in_recipients_cex :
    (send okAllSms []).attempts = ["15162341744", "15512259418"] ∧
    phone_numbers = ["15162341744", "15512259418"] := by
  refine ⟨rfl, rfl⟩

/-- Claim C8 (amended): the recipients `send` attempts are always an
initial segment of the hard-coded constant `phone_numbers`, whatever
the message and transport; the same holds for the attempts of a whole
`run_pipeline` run. -/
theorem attempts_initial_segment_of_constant (sms : SmsOracle) (msg : List Nat)
    (env : Env) (st0 : Store) :
    (send sms msg).attempts = phone_numbers.take (send sms msg).attempts.length
    ∧ (run_pipeline env st0).attempts =
        phone_numbers.take (run_pipeline env st0).attempts.length
    ∧ phone_numbers = ["15162341744", "15512259418"] := by
  have hsend : ∀ (o : SmsOracle) (m : List Nat),
      (send o m).attempts = phone_numbers.take (send o m).attempts.length := by
    intro o m
    cases h1 : o "15162341744" m with
    | error e1 => simp [send, sendGo, attempt, phone_numbers, h1]
    | ok r1 =>
      cases hc1 : strContainsSub r1 "success" with
      | false => simp [send, sendGo, attempt, phone_numbers, h1, hc1]
      | true =>
        cases h2 : o "15512259418" m with
        | error e2 => simp [send, sendGo, attempt, phone_numbers, h1, hc1, h2]
        | ok r2 =>
          cases hc2 : strContainsSub r2 "success" with
          | false => simp [send, sendGo, attempt, phone_numbers, h1, hc1, h2, hc2]
          | true => simp [send, sendGo, attempt, phone_numbers, h1, hc1, h2, hc2]
  refine ⟨hsend sms msg, ?_, rfl⟩
  rcases run_pipeline_attempts_cases env st0 with h | ⟨m, h⟩
  · rw [h]; rfl
  · rw [h]; exact hsend env.sms m

/-- Claim C9: a delivery attempt is classified as successful iff the
literal substring `success` occurs in the command's stdout; any
response body containing that substring — even one reporting failure —
raises no error for that recipient. -/
theorem success_marker_substring (sms : SmsOracle) (p : String) (msg : List Nat)
    (r : String) (h : sms p msg = .ok r) :
    (∃ r', attempt sms p msg = .ok r') ↔ strContainsSub r "success" = true := by
  simp only [attempt, h]
  cases hc : strContainsSub r "success" <;> simp [hc]

/-- Witness for claim C9 at a concrete input: the stdout
`{"success": false}` reports failure but contains the substring
`success`, so the attempt is classified as successful. -/
theorem success_marker_substring_witness :
    strContainsSub "\x7b\x22success\x22: false\x7d" "success" = true ∧
    (∃ r', attempt falseJsonSms "15162341744" [] = .ok r') :=
  ⟨by decide, (success_marker_substring falseJsonSms "15162341744" [] _ rfl).mpr
    (by decide)⟩

/-- Claim C10: when every recipient's attempt is classified as
successful, `send` — and therefore `run_pipeline` — returns only the
raw provider response of the final recipient; the first recipient's
response `r1` does not appear in the returned value. -/
theorem last_response_only (env : Env) (st0 : Store) (jr : String)
    (txs cats : List String) (ack : String) (envlp : List (String × JVal))
    (adv r1 r2 : String)
    (hf : env.fetchData = .ok jr)
    (hfil : env.filterNew jr st0.docs = .ok txs)
    (hc : env.categorize txs = .ok cats)
    (hw : env.write cats = .ok ack)
    (hr : env.readHealth = .ok ())
    (hg : env.generate (st0.docs ++ cats) = .ok envlp)
    (ha : List.lookup "advice" envlp = some (JVal.jstr adv))
    (h1 : env.sms "15162341744" (quote (utf8Bytes adv)) = .ok r1)
    (g1 : strContainsSub r1 "success" = true)
    (h2 : env.sms "15512259418" (quote (utf8Bytes adv)) = .ok r2)
    (g2 : strContainsSub r2 "success" = true) :
    (run_pipeline env st0).result = .ok r2 ∧
    (send env.sms (quote (utf8Bytes adv))).result = .ok r2 := by
  have hsend : (send env.sms (quote (utf8Bytes adv))).result = .ok r2 := by
    simp [send, sendGo, attempt, phone_numbers, h1, h2, g1, g2]
  refine ⟨?_, hsend⟩
  simp only [run_pipeline, hf, hfil, hc, hw, hr, hg, ha, pyQuote]
  exact hsend

/-- Witness for claim C10 at a concrete input: in the all-success
environment the pipeline returns the last recipient's stdout. -/
theorem last_response_only_witness :
    (run_pipeline okEnv ⟨[]⟩).result = .ok "ok success" ∧
    (send okEnv.sms (quote (utf8Bytes "Save more"))).result = .ok "ok success" :=
  last_response_only okEnv ⟨[]⟩ "rawsheet" ["t1"] ["t1:groceries"] "ack"
    [("advice", JVal.jstr "Save more")] "Save more" "ok success" "ok success"
    rfl rfl rfl rfl rfl rfl rfl rfl (by decide) rfl (by decide)

/- ---------------------------------------------------------------- -/
/- Behaviour of `run_pipeline` (claims C1, C4, C5, C7).             -/
/- ---------------------------------------------------------------- -/

/-- Claim C1: every run starts the stages strictly in the canonical
order (the started stages are an initial segment of
`pipelineOrder`, each stage receiving the prior stage's output by the
dataflow of `run_pipeline` itself); if the notify stage is never
reached no SMS delivery attempt is made; and a run that does not reach
the end of the stage list aborts with an error. -/
theorem pipeline_stage_order_and_abort (env : Env) (st0 : Store) :
    (run_pipeline env st0).stages =
      pipelineOrder.take (run_pipeline env st0).stages.length
    ∧ (Stage.notify ∉ (run_pipeline env st0).stages →
        (run_pipeline env st0).attempts = [])
    ∧ ((run_pipeline env st0).stages ≠ pipelineOrder →
        ∃ e, (run_pipeline env st0).result = .error e) := by
  cases hf : env.fetchData with
  | error e => refine ⟨?_, ?_, ?_⟩ <;> simp [run_pipeline, hf, pipelineOrder]
  | ok jr =>
    cases hfil : env.filterNew jr st0.docs with
    | error e =>
      refine ⟨?_, ?_, ?_⟩ <;> simp [run_pipeline, hf, hfil, pipelineOrder]
    | ok txs =>
      cases hc : env.categorize txs with
      | error e =>
        refine ⟨?_, ?_, ?_⟩ <;> simp [run_pipeline, hf, hfil, hc, pipelineOrder]
      | ok cats =>
        cases hw : env.write cats with
        | error e =>
          refine ⟨?_, ?_, ?_⟩ <;>
            simp [run_pipeline, hf, hfil, hc, hw, pipelineOrder]
        | ok ack =>
          cases hr : env.readHealth with
          | error e =>
            refine ⟨?_, ?_, ?_⟩ <;>
              simp [run_pipeline, hf, hfil, hc, hw, hr, pipelineOrder]
          | ok u =>
            cases hg : env.generate (st0.docs ++ cats) with
            | error e =>
              refine ⟨?_, ?_, ?_⟩ <;>
                simp [run_pipeline, hf, hfil, hc, hw, hr, hg, pipelineOrder]
            | ok envlp =>
              cases hq : pyQuote (List.lookup "advice" envlp) with
              | error e =>
                refine ⟨?_, ?_, ?_⟩ <;>
                  simp [run_pipeline, hf, hfil, hc, hw, hr, hg, hq, pipelineOrder]
              | ok m =>
                refine ⟨?_, ?_, ?_⟩ <;>
                  simp [run_pipeline, hf, hfil, hc, hw, hr, hg, hq, pipelineOrder]

/-- Witness for claim C1 at a concrete input: when the fetch stage
fails, no SMS delivery attempt is made and the run aborts with an
error. -/
theorem pipeline_stage_order_and_abort_witness :
    (run_pipeline fetchBoomEnv ⟨[]⟩).attempts = [] ∧
    ∃ e, (run_pipeline fetchBoomEnv ⟨[]⟩).result = .error e :=
  ⟨(pipeline_stage_order_and_abort fetchBoomEnv ⟨[]⟩).2.1 (by decide),
   (pipeline_stage_order_and_abort fetchBoomEnv ⟨[]⟩).2.2 (by decide)⟩

/-- Claim C4: once fetch, filter, categorize, persist and the retrieve
health check have succeeded, the history handed to the advice
generator is exactly the store contents after the same run's write —
it includes every just-written categorized transaction — the generator
is invoked exactly once per run, and the store holds the appended
batch. -/
theorem persist_before_advise (env : Env) (st0 : Store) (jr : String)
    (txs cats : List String) (ack : String)
    (hf : env.fetchData = .ok jr)
    (hfil : env.filterNew jr st0.docs = .ok txs)
    (hc : env.categorize txs = .ok cats)
    (hw : env.write cats = .ok ack)
    (hr : env.readHealth = .ok ()) :
    (run_pipeline env st0).genInputs = [st0.docs ++ cats]
    ∧ (∀ c ∈ cats, c ∈ st0.docs ++ cats)
    ∧ (run_pipeline env st0).store.docs = st0.docs ++ cats := by
  have key : (run_pipeline env st0).genInputs = [st0.docs ++ cats] ∧
      (run_pipeline env st0).store.docs = st0.docs ++ cats := by
    cases hg : env.generate (st0.docs ++ cats) with
    | error e => simp [run_pipeline, hf, hfil, hc, hw, hr, hg]
    | ok envlp =>
      cases hq : pyQuote (List.lookup "advice" envlp) with
      | error e => simp [run_pipeline, hf, hfil, hc, hw, hr, hg, hq]
      | ok m => simp [run_pipeline, hf, hfil, hc, hw, hr, hg, hq]
  exact ⟨key.1, fun c hcc => List.mem_append.mpr (Or.inr hcc), key.2⟩

/-- Witness for claim C4 at a concrete input: with one prior document
in the store, the generator sees the prior document followed by the
just-written categorized transaction. -/
theorem persist_before_advise_witness :
    (run_pipeline okEnv ⟨["old"]⟩).genInputs = [["old"] ++ ["t1:groceries"]]
    ∧ (∀ c ∈ ["t1:groceries"], c ∈ ["old"] ++ ["t1:groceries"])
    ∧ (run_pipeline okEnv ⟨["old"]⟩).store.docs = ["old"] ++ ["t1:groceries"] :=
  persist_before_advise okEnv ⟨["old"]⟩ "rawsheet" ["t1"] ["t1:groceries"] "ack"
    rfl rfl rfl rfl rfl

/-- Claim C5 counterexample: when the generator's response envelope
lacks the `advice` field, the run aborts before any SMS attempt, but
the raised error is the `TypeError` from `urllib.parse.quote(None)`,
not a `GenerationError`. -/
theorem missing_advice_not_generation_error_cex :
    (run_pipeline missingAdviceEnv ⟨[]⟩).result =
      .error (.typeError "quote_from_bytes() expected bytes") ∧
    exceptIsGenerationError (run_pipeline missingAdviceEnv ⟨[]⟩).result = false ∧
    (run_pipeline missingAdviceEnv ⟨[]⟩).attempts = [] := by
  refine ⟨rfl, rfl, rfl⟩

/-- Claim C5 (amended): if the generator's response envelope is
missing the `advice` field, the pipeline fails — with the `TypeError`
raised by percent-encoding the missing (`None`) value — before any SMS
delivery attempt; the notify stage is never reached, so empty advice
is never sent. -/
theorem missing_advice_aborts_before_sms (env : Env) (st0 : Store) (jr : String)
    (txs cats : List String) (ack : String) (envlp : List (String × JVal))
    (hf : env.fetchData = .ok jr)
    (hfil : env.filterNew jr st0.docs = .ok txs)
    (hc : env.categorize txs = .ok cats)
    (hw : env.write cats = .ok ack)
    (hr : env.readHealth = .ok ())
    (hg : env.generate (st0.docs ++ cats) = .ok envlp)
    (hmiss : List.lookup "advice" envlp = none) :
    (run_pipeline env st0).result =
      .error (.typeError "quote_from_bytes() expected bytes")
    ∧ (run_pipeline env st0).attempts = []
    ∧ Stage.notify ∉ (run_pipeline env st0).stages := by
  refine ⟨?_, ?_, ?_⟩ <;>
    simp [run_pipeline, hf, hfil, hc, hw, hr, hg, hmiss, pyQuote]

/-- Witness for the amended claim C5 at a concrete input. -/
theorem missing_advice_aborts_before_sms_witness :
    (run_pipeline missingAdviceEnv ⟨[]⟩).result =
      .error (.typeError "quote_from_bytes() expected bytes")
    ∧ (run_pipeline missingAdviceEnv ⟨[]⟩).attempts = []
    ∧ Stage.notify ∉ (run_pipeline missingAdviceEnv ⟨[]⟩).stages :=
  missing_advice_aborts_before_sms missingAdviceEnv ⟨[]⟩ "rawsheet" ["t1"]
    ["t1:groceries"] "ack" [("foo", JVal.jstr "x")] rfl rfl rfl rfl rfl rfl rfl

/-- Claim C7 counterexample: two runs failing at different stages
(fetch vs. categorize) surface exactly the same error value, so the
surfaced failure does not identify the failing stage and is not a
stage-naming wrapper around the underlying error. -/
theorem stage_error_indistinguishable_cex :
    (run_pipeline fetchBoomEnv ⟨[]⟩).result = .error (.external "boom") ∧
    (run_pipeline categorizeBoomEnv ⟨[]⟩).result = .error (.external "boom") ∧
    (run_pipeline fetchBoomEnv ⟨[]⟩).stages ≠
      (run_pipeline categorizeBoomEnv ⟨[]⟩).stages := by
  refine ⟨rfl, rfl, by decide⟩

/-- Claim C7 (amended): whenever a pre-notify stage raises, the run
aborts and `run_pipeline` propagates the stage's underlying exception
unchanged — there is no `PipelineError`-style wrapping naming the
failing stage. -/
theorem stage_error_propagates_bare (env : Env) (st0 : Store) (e : PyError) :
    (env.fetchData = .error e → (run_pipeline env st0).result = .error e)
    ∧ (∀ jr, env.fetchData = .ok jr → env.filterNew jr st0.docs = .error e →
        (run_pipeline env st0).result = .error e)
    ∧ (∀ jr txs, env.fetchData = .ok jr → env.filterNew jr st0.docs = .ok txs →
        env.categorize txs = .error e → (run_pipeline env st0).result = .error e)
    ∧ (∀ jr txs cats, env.fetchData = .ok jr →
        env.filterNew jr st0.docs = .ok txs → env.categorize txs = .ok cats →
        env.write cats = .error e → (run_pipeline env st0).result = .error e)
    ∧ (∀ jr txs cats ack, env.fetchData = .ok jr →
        env.filterNew jr st0.docs = .ok txs → env.categorize txs = .ok cats →
        env.write cats = .ok ack → env.readHealth = .error e →
        (run_pipeline env st0).result = .error e)
    ∧ (∀ jr txs cats ack, env.fetchData = .ok jr →
        env.filterNew jr st0.docs = .ok txs → env.categorize txs = .ok cats →
        env.write cats = .ok ack → env.readHealth = .ok () →
        env.generate (st0.docs ++ cats) = .error e →
        (run_pipeline env st0).result = .error e) := by
  refine ⟨?_, ?_, ?_, ?_, ?_, ?_⟩
  · intro hf
    simp [run_pipeline, hf]
  · intro jr hf hfil
    simp [run_pipeline, hf, hfil]
  · intro jr txs hf hfil hc
    simp [run_pipeline, hf, hfil, hc]
  · intro jr txs cats hf hfil hc hw
    simp [run_pipeline, hf, hfil, hc, hw]
  · intro jr txs cats ack hf hfil hc hw hr
    simp [run_pipeline, hf, hfil, hc, hw, hr]
  · intro jr txs cats ack hf hfil hc hw hr hg
    simp [run_pipeline, hf, hfil, hc, hw, hr, hg]

/-- Witness for the amended claim C7 at a concrete input: a categorize
failure surfaces as the bare underlying exception. -/
theorem stage_error_propagates_bare_witness :
    (run_pipeline categorizeBoomEnv ⟨[]⟩).result = .error (.external "boom") :=
  (stage_error_propagates_bare categorizeBoomEnv ⟨[]⟩ (.external "boom")).2.2.1
    "rawsheet" ["t1"] rfl rfl rfl
